import Mathlib

/-!
Shallow embedding of `src/main.py` (arxiv_paper_tracker): a single-file batch
pipeline that discovers recent arXiv papers, downloads each PDF, asks an
inference service for an analysis, appends the analyses to a persistent
markdown log (`conclusion.md`) and emails a report.

External collaborators (the arXiv search service, the PDF transfer, the
inference service, the SMTP transport) are modelled as explicit function
parameters / outcome values; the filesystem is a list of present paths; the
persistent log is a string that write calls append to.  Python `datetime`
values are modelled by a calendar-day ordinal (proleptic Gregorian day count,
epoch 0000-03-01) plus a time of day; `datetime - timedelta(days=2)` is then
ordinal subtraction by 2, exactly as in Python (subtracting whole days never
changes the time of day).
-/

/-- Day ordinal → (year, month, day) in the proleptic Gregorian calendar,
with day 0 = 0000-03-01 (the standard era-based civil-from-days algorithm,
all operations on `Nat`). -/
def civil_from_days (z : Nat) : Nat × Nat × Nat :=
  let era := z / 146097
  let doe := z % 146097
  let yoe := (doe - doe / 1460 + doe / 36524 - doe / 146096) / 365
  let y := yoe + era * 400
  let doy := doe - (365 * yoe + yoe / 4 - yoe / 100)
  let mp := (5 * doy + 2) / 153
  let d := doy - (153 * mp + 2) / 5 + 1
  let m := if mp < 10 then mp + 3 else mp - 9
  (if m ≤ 2 then y + 1 else y, m, d)

/-- Inverse direction, used only to build readable concrete dates in tests:
(year, month, day) → day ordinal. -/
def days_from_civil (y m d : Nat) : Nat :=
  let y' := if m ≤ 2 then y - 1 else y
  let m' := if m ≤ 2 then m + 9 else m - 3
  let era := y' / 400
  let yoe := y' % 400
  let doy := (153 * m' + 2) / 5 + d - 1
  let doe := yoe * 365 + yoe / 4 - yoe / 100 + doy
  era * 146097 + doe

/-- Zero-padded two-digit field, as `strftime` renders `%m`, `%d`, `%H` … -/
def pad2 (n : Nat) : String :=
  if n < 10 then "0" ++ toString n else toString n

/-- Zero-padded four-digit year, as `strftime` renders `%Y`. -/
def pad4 (n : Nat) : String :=
  if n < 10 then "000" ++ toString n
  else if n < 100 then "00" ++ toString n
  else if n < 1000 then "0" ++ toString n
  else toString n

/-- `strftime('%Y%m%d')` on the date with the given ordinal. -/
def strftime_Ymd (ord : Nat) : String :=
  let c := civil_from_days ord
  pad4 c.1 ++ pad2 c.2.1 ++ pad2 c.2.2

/-- `strftime('%Y-%m-%d')` on the date with the given ordinal. -/
def strftime_Y_m_d (ord : Nat) : String :=
  let c := civil_from_days ord
  pad4 c.1 ++ "-" ++ pad2 c.2.1 ++ "-" ++ pad2 c.2.2

/-- A Python `datetime`: calendar-day ordinal plus time of day (papers from
the arXiv client carry a UTC offset, rendered by `str()`). -/
structure Datetime where
  ord : Nat
  hour : Nat
  minute : Nat
  second : Nat
deriving DecidableEq, Repr

/-- `str(d)` for an aware UTC datetime, as interpolated into the prompt
f-string. -/
def Datetime.str (d : Datetime) : String :=
  strftime_Y_m_d d.ord ++ " " ++ pad2 d.hour ++ ":" ++ pad2 d.minute ++ ":" ++
    pad2 d.second ++ "+00:00"

/-- An `arxiv.Result.Author`: the code reads only `.name`. -/
structure Author where
  name : String
deriving DecidableEq, Repr

/-- An `arxiv.Result` as consumed by the code: `get_short_id()`, `title`,
`authors`, `categories`, `published`, `entry_id`, plus the download handle
(modelled by the per-paper download outcome in the environment). -/
structure Paper where
  short_id : String
  title : String
  authors : List Author
  categories : List String
  published : Datetime
  entry_id : String
deriving DecidableEq, Repr

/-- `arxiv.SortCriterion`. -/
inductive SortCriterion where
  | Relevance
  | LastUpdatedDate
  | SubmittedDate
deriving DecidableEq, Repr

/-- `arxiv.SortOrder`. -/
inductive SortOrder where
  | Ascending
  | Descending
deriving DecidableEq, Repr

/-- The arguments handed to `arxiv.Search(...)`. -/
structure SearchSpec where
  query : String
  max_results : Nat
  sort_by : SortCriterion
  sort_order : SortOrder
deriving DecidableEq, Repr

/-- Module-level constant `CATEGORIES`. -/
def CATEGORIES : List String := ["cs.AR", "cs.AI"]

/-- Module-level constant `MAX_PAPERS`. -/
def MAX_PAPERS : Nat := 50

/-- Module-level constant `PAPERS_DIR` (`Path("./papers")` stringifies to
`papers`). -/
def PAPERS_DIR : String := "papers"

/-- Module-level constant `CONCLUSION_FILE` (as a string path). -/
def CONCLUSION_FILE : String := "conclusion.md"

/-- `get_recent_papers(categories, max_results)`: build the category OR
query and the two-day trailing `submittedDate` window from the current date,
then hand the query to the external search service and return its result
list.  The service is the `search` parameter; `now` is
`datetime.datetime.now()`. -/
def get_recent_papers (search : SearchSpec → List Paper) (now : Datetime)
    (categories : List String) (max_results : Nat) : List Paper :=
  let today := now
  let five_days_ago := today.ord - 2
  let start_date := strftime_Ymd five_days_ago
  let end_date := strftime_Ymd today.ord
  let category_query := String.intercalate " OR " (categories.map (fun cat => "cat:" ++ cat))
  let date_range := "submittedDate:[" ++ start_date ++ "000000 TO " ++ end_date ++ "235959]"
  let query := "(" ++ category_query ++ ") AND " ++ date_range
  search { query := query, max_results := max_results,
           sort_by := SortCriterion.SubmittedDate, sort_order := SortOrder.Descending }

/-- Result of one attempted PDF transfer (`paper.download_pdf`): success, or
the exception message. -/
inductive DownloadOutcome where
  | ok
  | err (e : String)
deriving DecidableEq, Repr

/-- Result of one inference call (`openai.ChatCompletion.create`): the
completion text, or the exception message. -/
inductive InferOutcome where
  | ok (text : String)
  | err (e : String)
deriving DecidableEq, Repr

/-- Result of the SMTP session (`server.send_message`): success, or the
exception message. -/
inductive MailOutcome where
  | ok
  | err (e : String)
deriving DecidableEq, Repr

/-- The message assembled by `send_email`. -/
structure MailMsg where
  msg_from : String
  msg_to : String
  subject : String
  body : String
deriving DecidableEq, Repr

/-- Observable side effects of a run, in order: a PDF transfer attempt, the
fixed `time.sleep(2)`, one inference request (its messages), a transient-file
deletion, an append to the persistent log, and an SMTP delivery attempt. -/
inductive Effect where
  | transfer (path : String)
  | sleep (secs : Nat)
  | inferCall (messages : List (String × String))
  | deleteFile (path : String)
  | logAppend (text : String)
  | mailAttempt (msg : MailMsg)
deriving DecidableEq, Repr

/-- The transient-file path `download_paper` derives:
`output_dir / f"{paper.get_short_id().replace('/', '_')}.pdf"`. -/
def derived_pdf_path (output_dir : String) (paper : Paper) : String :=
  output_dir ++ "/" ++ (paper.short_id.replace "/" "_") ++ ".pdf"

/-- `download_paper(paper, output_dir)` over an explicit filesystem `fs`
(the list of paths present).  Returns the path (or `none` on failure), the
new filesystem, and the transfer attempts performed.  If the file already
exists the function returns its path without attempting a transfer. -/
def download_paper (paper : Paper) (output_dir : String) (fs : List String)
    (outcome : DownloadOutcome) : Option String × List String × List Effect :=
  let pdf_path := derived_pdf_path output_dir paper
  if fs.contains pdf_path then
    (some pdf_path, fs, [])
  else
    match outcome with
    | DownloadOutcome.ok => (some pdf_path, pdf_path :: fs, [Effect.transfer pdf_path])
    | DownloadOutcome.err _e => (none, fs, [Effect.transfer pdf_path])

/-- The user prompt built by `analyze_paper_with_deepseek` (the f-string,
built from metadata only). -/
def build_prompt (paper : Paper) : String :=
  let author_names := paper.authors.map Author.name
  "\n        论文标题: " ++ paper.title ++
  "\n        作者: " ++ String.intercalate ", " author_names ++
  "\n        类别: " ++ String.intercalate ", " paper.categories ++
  "\n        发布时间: " ++ paper.published.str ++
  "\n        \n        请分析这篇研究论文并提供：" ++
  "\n        1. 简明摘要（3-5句话）" ++
  "\n        2. 主要贡献和创新点" ++
  "\n        3. 研究方法，具体采用的技术，工具，数据集" ++
  "\n        4. 实验结果，包括数据集，实验设置，实验结果，实验结论" ++
  "\n        5. 对领域的潜在影响" ++
  "\n        6. 局限性或未来工作方向" ++
  "\n        \n        请使用中文回答，并以纯文本，分自然段格式输出。\n        "

/-- The `messages` list passed to `openai.ChatCompletion.create`: a system
instruction and the metadata prompt.  The `pdf_path` argument is accepted
(as in the source) and plays no role in the request. -/
def analyze_request (pdf_path : String) (paper : Paper) : List (String × String) :=
  [("system", "你是一位专门总结和分析学术论文的研究助手。请使用中文回复。"),
   ("user", build_prompt paper)]

/-- `analyze_paper_with_deepseek(pdf_path, paper)`: one inference request;
on success return the completion text, on any failure return the inline
error placeholder. -/
def analyze_paper_with_deepseek (infer : List (String × String) → InferOutcome)
    (pdf_path : String) (paper : Paper) : String :=
  match infer (analyze_request pdf_path paper) with
  | InferOutcome.ok text => text
  | InferOutcome.err e => "**论文分析出错**: " ++ e

/-- `write_to_conclusion(papers_analyses)` over an explicit current file
content `file` (the file is opened in append mode, so the prior content is
the initial accumulator): write the dated section header, then one entry per
`(paper, analysis)` pair.  Returns the new file content. -/
def write_to_conclusion (now : Datetime) (file : String)
    (papers_analyses : List (Paper × String)) : String :=
  let today := strftime_Y_m_d now.ord
  let f := file ++ "\n\n## ArXiv论文 - 最近5天 (截至 " ++ today ++ ")\n\n"
  papers_analyses.foldl (fun f pa =>
    let author_names := pa.1.authors.map Author.name
    f ++ "### " ++ pa.1.title ++ "\n"
      ++ "**作者**: " ++ String.intercalate ", " author_names ++ "\n"
      ++ "**类别**: " ++ String.intercalate ", " pa.1.categories ++ "\n"
      ++ "**发布日期**: " ++ strftime_Y_m_d pa.1.published.ord ++ "\n"
      ++ "**链接**: " ++ pa.1.entry_id ++ "\n\n"
      ++ pa.2 ++ "\n\n"
      ++ "---\n\n") f

/-- `format_email_content(papers_analyses)`: same per-paper entries, built by
`+=` on a string that starts with the email report header. -/
def format_email_content (now : Datetime)
    (papers_analyses : List (Paper × String)) : String :=
  let today := strftime_Y_m_d now.ord
  let content := "## 今日ArXiv论文分析报告 (" ++ today ++ ")\n\n"
  papers_analyses.foldl (fun content pa =>
    let author_names := pa.1.authors.map Author.name
    content ++ "### " ++ pa.1.title ++ "\n"
      ++ "**作者**: " ++ String.intercalate ", " author_names ++ "\n"
      ++ "**类别**: " ++ String.intercalate ", " pa.1.categories ++ "\n"
      ++ "**发布日期**: " ++ strftime_Y_m_d pa.1.published.ord ++ "\n"
      ++ "**链接**: " ++ pa.1.entry_id ++ "\n\n"
      ++ pa.2 ++ "\n\n"
      ++ "---\n\n") content

/-- `delete_pdf(pdf_path)` over the explicit filesystem: unlink the file when
present (recording the deletion), otherwise do nothing. -/
def delete_pdf (fs : List String) (pdf_path : String) : List String × List Effect :=
  if fs.contains pdf_path then
    (fs.filter (fun p => p != pdf_path), [Effect.deleteFile pdf_path])
  else
    (fs, [])

/-- The environment-derived mail settings (`os.getenv` results: `none` when
unset; `SMTP_PORT` already parsed with its 587 default; `EMAIL_TO` already
split, stripped and filtered). -/
structure MailConfig where
  SMTP_SERVER : Option String
  SMTP_PORT : Nat
  SMTP_USERNAME : Option String
  SMTP_PASSWORD : Option String
  EMAIL_FROM : Option String
  EMAIL_TO : List String
deriving DecidableEq, Repr

/-- Python truthiness of an optional string: `None` and `""` are falsy. -/
def truthyOpt : Option String → Bool
  | none => false
  | some s => !s.isEmpty

/-- The fixed HTML shell up to the point where the converted content is
spliced in (the jinja2 template before the placeholder). -/
def email_html_before : String :=
  "\n        <html>\n        <head>\n            <meta charset=\"UTF-8\">\n            <style>body\x7bfont-family:-apple-system,BlinkMacSystemFont,\x27Segoe UI\x27,Roboto,\x27Helvetica Neue\x27,Arial,sans-serif;line-height:1.6;max-width:1000px;margin:0 auto;padding:20px;background-color:#f5f5f5;\x7d.container\x7bbackground-color:white;padding:30px;border-radius:8px;box-shadow:0 2px 4px rgba(0,0,0,0.1);\x7dh1\x7bcolor:#2c3e50;border-bottom:2px solid #3498db;padding-bottom:10px;margin-bottom:30px;\x7dh2\x7bcolor:#34495e;margin-top:40px;padding-bottom:8px;border-bottom:1px solid #eee;\x7dh3\x7bcolor:#2980b9;margin-top:30px;\x7d.paper-info\x7bbackground-color:#f8f9fa;padding:15px;border-left:4px solid #3498db;margin-bottom:20px;\x7d.paper-info p\x7bmargin:5px 0;\x7d.paper-info strong\x7bcolor:#2c3e50;\x7da\x7bcolor:#3498db;text-decoration:none;\x7da:hover\x7btext-decoration:underline;\x7dhr\x7bborder:none;border-top:1px solid #eee;margin:30px 0;\x7d.section\x7bmargin-bottom:20px;\x7d.section h4\x7bcolor:#2c3e50;margin-bottom:10px;\x7dpre\x7bbackground-color:#f8f9fa;padding:15px;border-radius:4px;overflow-x:auto;\x7dcode\x7bfont-family:Consolas,Monaco,\x27Courier New\x27,monospace;background-color:#f8f9fa;padding:2px 4px;border-radius:3px;\x7d</style>\n        </head>\n        <body>\n            <div class=\"container\">\n                "

/-- The fixed HTML shell after the spliced content. -/
def email_html_after : String :=
  "\n            </div>\n        </body>\n        </html>\n        "

/-- The literal-substring markdown-to-HTML conversion performed in
`send_email`: the two Python `str.replace` calls followed by the template's
three jinja2 `replace` filters, spliced into the HTML shell. -/
def render_email_html (content : String) : String :=
  let content_html := (content.replace "\n\n" "<br><br>").replace "---" "<hr>"
  let rendered := ((content_html.replace "###" "<h2>").replace "##" "<h1>").replace "**" "<strong>"
  email_html_before ++ rendered ++ email_html_after

/-- What `send_email(content)` did: skipped on incomplete configuration,
delivered one message, or attempted one message whose delivery failure was
caught and logged. -/
inductive SendResult where
  | skipped
  | sent (msg : MailMsg)
  | failedLogged (msg : MailMsg) (e : String)
deriving DecidableEq, Repr

/-- `send_email(content)`: skip when
`not all([SMTP_SERVER, SMTP_PORT, SMTP_USERNAME, SMTP_PASSWORD, EMAIL_FROM])
or not EMAIL_TO`; otherwise assemble one message (To header = recipients
joined by a comma) and attempt delivery, catching any failure. -/
def send_email (cfg : MailConfig) (deliver : MailMsg → MailOutcome)
    (now : Datetime) (content : String) : SendResult :=
  if !(truthyOpt cfg.SMTP_SERVER && (cfg.SMTP_PORT != 0) && truthyOpt cfg.SMTP_USERNAME
        && truthyOpt cfg.SMTP_PASSWORD && truthyOpt cfg.EMAIL_FROM)
      || cfg.EMAIL_TO.isEmpty then
    SendResult.skipped
  else
    let msg : MailMsg := {
      msg_from := cfg.EMAIL_FROM.getD ""
      msg_to := String.intercalate ", " cfg.EMAIL_TO
      subject := "ArXiv论文分析报告 - " ++ strftime_Y_m_d now.ord
      body := render_email_html content }
    match deliver msg with
    | MailOutcome.ok => SendResult.sent msg
    | MailOutcome.err e => SendResult.failedLogged msg e

/-- The network effects of a `send_email` call: one SMTP attempt unless the
call skipped. -/
def send_effects : SendResult → List Effect
  | SendResult.skipped => []
  | SendResult.sent m => [Effect.mailAttempt m]
  | SendResult.failedLogged m _ => [Effect.mailAttempt m]

/-- The per-paper loop of `main`: for each paper, download; on failure skip
to the next paper; on success sleep 2 seconds, analyze (one inference call),
append the pair to the run report, and delete the PDF.  Returns the run
report, the final filesystem, and the effects in order. -/
def process_papers (download : Paper → DownloadOutcome)
    (infer : List (String × String) → InferOutcome) :
    List String → List Paper → List (Paper × String) × List String × List Effect
  | fs, [] => ([], fs, [])
  | fs, paper :: rest =>
    let dres := download_paper paper PAPERS_DIR fs (download paper)
    match dres.1 with
    | none =>
      let r := process_papers download infer dres.2.1 rest
      (r.1, r.2.1, dres.2.2 ++ r.2.2)
    | some pdf_path =>
      let analysis := analyze_paper_with_deepseek infer pdf_path paper
      let del := delete_pdf dres.2.1 pdf_path
      let r := process_papers download infer del.1 rest
      ((paper, analysis) :: r.1, r.2.1,
        dres.2.2 ++ [Effect.sleep 2, Effect.inferCall (analyze_request pdf_path paper)]
          ++ del.2 ++ r.2.2)

/-- The external world of one run: the search service, the per-paper
transfer outcome, the inference service, the mail transport, and the clock. -/
structure Env where
  search : SearchSpec → List Paper
  download : Paper → DownloadOutcome
  infer : List (String × String) → InferOutcome
  deliver : MailMsg → MailOutcome
  now : Datetime

/-- Mutable state a run starts from: the persistent log content and the
filesystem. -/
structure RunState where
  conclusion : String
  fs : List String
deriving DecidableEq, Repr

/-- What one run produced: final log content, final filesystem, the ordered
effect trace, and the notifier outcome (`none` when the run exited before
the finalize steps). -/
structure RunOutcome where
  conclusion : String
  fs : List String
  trace : List Effect
  send_result : Option SendResult
deriving DecidableEq, Repr

/-- `main()`: discover; if no papers, exit; else process each paper, append
the run report to the persistent log, then email the formatted report.
(Named `main_run` because `main` has a reserved signature in Lean.) -/
def main_run (cfg : MailConfig) (env : Env) (st : RunState) : RunOutcome :=
  let papers := get_recent_papers env.search env.now CATEGORIES MAX_PAPERS
  if papers.isEmpty then
    { conclusion := st.conclusion, fs := st.fs, trace := [], send_result := none }
  else
    let r := process_papers env.download env.infer st.fs papers
    let conclusion1 := write_to_conclusion env.now st.conclusion r.1
    let email_content := format_email_content env.now r.1
    let sr := send_email cfg env.deliver env.now email_content
    { conclusion := conclusion1, fs := r.2.1,
      trace := r.2.2 ++ [Effect.logAppend (write_to_conclusion env.now "" r.1)]
        ++ send_effects sr,
      send_result := some sr }

/-- The per-paper entry both renderers produce (lines 148-154 and 168-174 of
the source are the same seven writes). -/
def conclusion_entry (pa : Paper × String) : String :=
  let author_names := pa.1.authors.map Author.name
  "### " ++ pa.1.title ++ "\n"
    ++ "**作者**: " ++ String.intercalate ", " author_names ++ "\n"
    ++ "**类别**: " ++ String.intercalate ", " pa.1.categories ++ "\n"
    ++ "**发布日期**: " ++ strftime_Y_m_d pa.1.published.ord ++ "\n"
    ++ "**链接**: " ++ pa.1.entry_id ++ "\n\n"
    ++ pa.2 ++ "\n\n"
    ++ "---\n\n"

/-- Concatenation of one entry per `(paper, analysis)` pair. -/
def run_body : List (Paper × String) → String
  | [] => ""
  | pa :: rest => conclusion_entry pa ++ run_body rest

/-- The dated section header `write_to_conclusion` writes. -/
def log_section_header (now : Datetime) : String :=
  "\n\n## ArXiv论文 - 最近5天 (截至 " ++ strftime_Y_m_d now.ord ++ ")\n\n"

/-- The header `format_email_content` starts from. -/
def email_report_header (now : Datetime) : String :=
  "## 今日ArXiv论文分析报告 (" ++ strftime_Y_m_d now.ord ++ ")\n\n"

/-- A concrete paper record for concrete-input checks. -/
def samplePaper : Paper :=
  { short_id := "2401.00001v1"
    title := "A Sample Architecture Paper"
    authors := [{ name := "Ada L." }, { name := "Bo C." }]
    categories := ["cs.AR", "cs.AI"]
    published := { ord := days_from_civil 2024 1 1, hour := 9, minute := 30, second := 0 }
    entry_id := "http://arxiv.org/abs/2401.00001v1" }

/-- A complete mail configuration for concrete-input checks. -/
def sampleConfig : MailConfig :=
  { SMTP_SERVER := some "smtp.example.com"
    SMTP_PORT := 587
    SMTP_USERNAME := some "user"
    SMTP_PASSWORD := some "pw"
    EMAIL_FROM := some "from@example.com"
    EMAIL_TO := ["a@example.com", "b@example.com"] }

/-- An environment whose search service finds nothing. -/
def emptySearchEnv : Env :=
  { search := fun _ => []
    download := fun _ => DownloadOutcome.ok
    infer := fun _ => InferOutcome.ok "analysis"
    deliver := fun _ => MailOutcome.ok
    now := { ord := days_from_civil 2026 10 12, hour := 8, minute := 0, second := 0 } }

/-- An environment that finds one paper whose PDF transfer fails. -/
def failDownloadEnv : Env :=
  { search := fun _ => [samplePaper]
    download := fun _ => DownloadOutcome.err "connection reset"
    infer := fun _ => InferOutcome.ok "analysis"
    deliver := fun _ => MailOutcome.ok
    now := { ord := days_from_civil 2026 10 12, hour := 8, minute := 0, second := 0 } }

/-! ## Helper lemmas -/

/-- The fold step shared by the report writer and the notifier appends one
`conclusion_entry` per pair. -/
theorem entry_foldl (l : List (Paper × String)) (init : String) :
    List.foldl (fun f pa =>
      let author_names := pa.1.authors.map Author.name
      f ++ "### " ++ pa.1.title ++ "\n"
        ++ "**作者**: " ++ String.intercalate ", " author_names ++ "\n"
        ++ "**类别**: " ++ String.intercalate ", " pa.1.categories ++ "\n"
        ++ "**发布日期**: " ++ strftime_Y_m_d pa.1.published.ord ++ "\n"
        ++ "**链接**: " ++ pa.1.entry_id ++ "\n\n"
        ++ pa.2 ++ "\n\n"
        ++ "---\n\n") init l = init ++ run_body l := by
  induction l generalizing init with
  | nil => simp [run_body]
  | cons pa rest ih =>
      simp only [List.foldl_cons, run_body]
      rw [ih]
      simp [conclusion_entry, String.append_assoc]

/-- Closed form of the report writer: prior content, then the dated header,
then one entry per pair. -/
theorem write_to_conclusion_closed (now : Datetime) (file : String)
    (l : List (Paper × String)) :
    write_to_conclusion now file l = file ++ log_section_header now ++ run_body l := by
  simp only [write_to_conclusion]
  rw [entry_foldl]
  simp [log_section_header, String.append_assoc]

/-- Closed form of the notifier body: the email header, then one entry per
pair. -/
theorem format_email_content_closed (now : Datetime) (l : List (Paper × String)) :
    format_email_content now l = email_report_header now ++ run_body l := by
  simp only [format_email_content]
  rw [entry_foldl]
  simp [email_report_header]

/-- `download_paper` performs at most one transfer attempt, at the derived
path. -/
theorem download_paper_effect_shape (paper : Paper) (output_dir : String)
    (fs : List String) (outcome : DownloadOutcome) :
    (download_paper paper output_dir fs outcome).2.2 = []
    ∨ (download_paper paper output_dir fs outcome).2.2
        = [Effect.transfer (derived_pdf_path output_dir paper)] := by
  unfold download_paper
  by_cases h : derived_pdf_path output_dir paper ∈ fs
  · left; simp [h]
  · right; cases outcome <;> simp [h]

/-- `delete_pdf` performs at most one deletion, of the given path. -/
theorem delete_pdf_effect_shape (fs : List String) (p : String) :
    (delete_pdf fs p).2 = [] ∨ (delete_pdf fs p).2 = [Effect.deleteFile p] := by
  unfold delete_pdf
  by_cases h : p ∈ fs
  · right; simp [h]
  · left; simp [h]

/-- Run-report pairs only ever mention discovered papers. -/
theorem process_pairs_mem (dl : Paper → DownloadOutcome)
    (inf : List (String × String) → InferOutcome) :
    ∀ (l : List Paper) (fs : List String) (pa : Paper × String),
      pa ∈ (process_papers dl inf fs l).1 → pa.1 ∈ l := by
  intro l
  induction l with
  | nil => intro fs pa h; simp [process_papers] at h
  | cons p rest ih =>
      intro fs pa h
      simp only [process_papers] at h
      rcases hd : (download_paper p PAPERS_DIR fs (dl p)).1 with _ | path <;> rw [hd] at h
      · exact List.mem_cons_of_mem p (ih _ pa h)
      · rcases List.mem_cons.mp h with h1 | h1
        · rw [h1]; exact List.mem_cons_self p rest
        · exact List.mem_cons_of_mem p (ih _ pa h1)

/-- The per-paper loop performs no log write and no mail attempt. -/
theorem process_trace_no_finalize (dl : Paper → DownloadOutcome)
    (inf : List (String × String) → InferOutcome) :
    ∀ (l : List Paper) (fs : List String),
      (∀ m, Effect.mailAttempt m ∉ (process_papers dl inf fs l).2.2)
      ∧ (∀ t, Effect.logAppend t ∉ (process_papers dl inf fs l).2.2) := by
  intro l
  induction l with
  | nil => intro fs; constructor <;> intro x <;> simp [process_papers]
  | cons p rest ih =>
      intro fs
      refine ⟨fun m hx => ?_, fun t hx => ?_⟩
      all_goals
        simp only [process_papers] at hx
        rcases hd : (download_paper p PAPERS_DIR fs (dl p)).1 with _ | path <;>
          simp only [hd] at hx
        · rcases download_paper_effect_shape p PAPERS_DIR fs (dl p) with hs | hs <;>
            rw [hs] at hx <;> simp at hx <;>
            first
              | exact (ih _).1 _ hx
              | exact (ih _).2 _ hx
        · rcases download_paper_effect_shape p PAPERS_DIR fs (dl p) with hs | hs <;>
            rcases delete_pdf_effect_shape (download_paper p PAPERS_DIR fs (dl p)).2.1 path with hs2 | hs2 <;>
            rw [hs, hs2] at hx <;> simp at hx <;>
            first
              | exact (ih _).1 _ hx
              | exact (ih _).2 _ hx

/-! ## Claim theorems -/

/-- C1 (counterexample): the claim says the inference request includes the
retrieved document content (the PDF bytes) as an attached artifact.  It does
not: for the same paper, two different retrieved documents produce the
identical request, so the request cannot include the document. -/
theorem c1_request_has_no_document_cex :
    analyze_request "papers/2401.00001v1.pdf" samplePaper
      = analyze_request "papers/a-different-document.pdf" samplePaper
    ∧ ("papers/2401.00001v1.pdf" : String) ≠ "papers/a-different-document.pdf" :=
  ⟨rfl, by decide⟩

/-- C1 (amended): the analysis generator issues a single inference request
built only from the paper's metadata prompt; the retrieved document (the
`pdf_path` argument) is not part of the request and the generator does not
parse or validate it — the request and the returned analysis are independent
of the document. -/
theorem c1_request_is_metadata_only (pdf_path pdf_path' : String) (paper : Paper)
    (infer : List (String × String) → InferOutcome) :
    analyze_request pdf_path paper
      = [("system", "你是一位专门总结和分析学术论文的研究助手。请使用中文回复。"),
         ("user", build_prompt paper)]
    ∧ analyze_request pdf_path paper = analyze_request pdf_path' paper
    ∧ analyze_paper_with_deepseek infer pdf_path paper
        = analyze_paper_with_deepseek infer pdf_path' paper :=
  ⟨rfl, rfl, rfl⟩

/-- C8: the report writer only appends — prior content is preserved verbatim,
one dated section header is written per invocation followed by one entry per
pair, an empty result list yields the header alone, and two successive runs
leave both sections in call order. -/
theorem c8_write_to_conclusion_append_only (now now₂ : Datetime) (prior : String)
    (l l₂ : List (Paper × String)) :
    write_to_conclusion now prior l = prior ++ (log_section_header now ++ run_body l)
    ∧ write_to_conclusion now prior [] = prior ++ log_section_header now
    ∧ write_to_conclusion now₂ (write_to_conclusion now prior l) l₂
        = prior ++ (log_section_header now ++ run_body l)
            ++ (log_section_header now₂ ++ run_body l₂) := by
  refine ⟨?_, ?_, ?_⟩ <;>
    simp [write_to_conclusion_closed, run_body, String.append_assoc]

/-- C10: the notifier body and the appended log section are the same
character string after their respective leading headers — both are the
header followed by the same `run_body`. -/
theorem c10_log_and_email_bodies_agree (now : Datetime) (prior : String)
    (l : List (Paper × String)) :
    write_to_conclusion now prior l = prior ++ log_section_header now ++ run_body l
    ∧ format_email_content now l = email_report_header now ++ run_body l :=
  ⟨write_to_conclusion_closed now prior l, format_email_content_closed now l⟩

/-- C3: retrieval is idempotent — if a call returns a path, a second call on
the resulting filesystem performs no transfer and returns the same path, the
deterministically derived one. -/
theorem c3_download_paper_idempotent (paper : Paper) (output_dir : String)
    (fs fs' : List String) (o₁ o₂ : DownloadOutcome) (p : String)
    (eff : List Effect)
    (h : download_paper paper output_dir fs o₁ = (some p, fs', eff)) :
    download_paper paper output_dir fs' o₂ = (some p, fs', [])
    ∧ p = derived_pdf_path output_dir paper := by
  unfold download_paper at h ⊢
  by_cases hc : derived_pdf_path output_dir paper ∈ fs
  · simp only [List.elem_eq_mem, hc, decide_True, if_true, Prod.mk.injEq,
      Option.some.injEq] at h
    obtain ⟨rfl, rfl, rfl⟩ := h
    refine ⟨?_, rfl⟩
    simp [hc]
  · cases o₁ with
    | ok =>
        simp only [List.elem_eq_mem, hc, decide_False, Bool.false_eq_true, if_false,
          Prod.mk.injEq, Option.some.injEq] at h
        obtain ⟨rfl, rfl, rfl⟩ := h
        refine ⟨?_, rfl⟩
        simp
    | err e =>
        simp [hc] at h

/-- C3 (witness): a concrete first call that transfers, followed by a second
call that returns on the existence check with no transfer. -/
theorem c3_download_paper_idempotent_witness :
    download_paper samplePaper PAPERS_DIR
        [derived_pdf_path PAPERS_DIR samplePaper] (DownloadOutcome.err "network error")
      = (some (derived_pdf_path PAPERS_DIR samplePaper),
         [derived_pdf_path PAPERS_DIR samplePaper], []) := by
  have h : download_paper samplePaper PAPERS_DIR [] DownloadOutcome.ok
      = (some (derived_pdf_path PAPERS_DIR samplePaper),
         [derived_pdf_path PAPERS_DIR samplePaper],
         [Effect.transfer (derived_pdf_path PAPERS_DIR samplePaper)]) := rfl
  exact (c3_download_paper_idempotent samplePaper PAPERS_DIR [] _
    DownloadOutcome.ok (DownloadOutcome.err "network error") _ _ h).1

/-- C2: discovery hands the search service a query that is the OR of the
given categories AND a `submittedDate` window from two days before the call
date (at 000000) to the call date (at 235959), sorted by submission date
descending; it never returns more than the requested maximum (the service
honours its `max_results` argument), and an empty service result is returned
as an empty list, not an error. -/
theorem c2_get_recent_papers_spec (search : SearchSpec → List Paper)
    (now : Datetime) (categories : List String) (max_results : Nat)
    (hcats : categories ≠ [])
    (hsvc : ∀ s, (search s).length ≤ s.max_results) :
    get_recent_papers search now categories max_results
      = search { query := "(" ++ String.intercalate " OR "
                     (categories.map (fun cat => "cat:" ++ cat))
                   ++ ") AND " ++ ("submittedDate:[" ++ strftime_Ymd (now.ord - 2)
                   ++ "000000 TO " ++ strftime_Ymd now.ord ++ "235959]"),
                 max_results := max_results,
                 sort_by := SortCriterion.SubmittedDate,
                 sort_order := SortOrder.Descending }
    ∧ (get_recent_papers search now categories max_results).length ≤ max_results
    ∧ (search { query := "(" ++ String.intercalate " OR "
                     (categories.map (fun cat => "cat:" ++ cat))
                   ++ ") AND " ++ ("submittedDate:[" ++ strftime_Ymd (now.ord - 2)
                   ++ "000000 TO " ++ strftime_Ymd now.ord ++ "235959]"),
                 max_results := max_results,
                 sort_by := SortCriterion.SubmittedDate,
                 sort_order := SortOrder.Descending } = []
        → get_recent_papers search now categories max_results = []) := by
  refine ⟨rfl, hsvc _, fun h => h⟩

/-- C2 (witness): the default categories and cap, against a service that
returns nothing. -/
theorem c2_get_recent_papers_spec_witness :
    CATEGORIES ≠ []
    ∧ (get_recent_papers (fun _ => []) ⟨days_from_civil 2026 10 12, 8, 0, 0⟩
        CATEGORIES MAX_PAPERS).length ≤ MAX_PAPERS := by
  refine ⟨by decide, ?_⟩
  exact (c2_get_recent_papers_spec (fun _ => []) ⟨days_from_civil 2026 10 12, 8, 0, 0⟩
    CATEGORIES MAX_PAPERS (by decide) (fun s => Nat.zero_le _)).2.1

/-- C6: when discovery returns no papers the run exits at once — the state is
unchanged, the trace is empty (no log append, no mail attempt), and no
notifier outcome exists. -/
theorem c6_empty_discovery_exits (cfg : MailConfig) (env : Env) (st : RunState)
    (h : get_recent_papers env.search env.now CATEGORIES MAX_PAPERS = []) :
    main_run cfg env st
      = { conclusion := st.conclusion, fs := st.fs, trace := [],
          send_result := none } := by
  simp only [main_run, h]
  rfl

/-- C6 (witness): a concrete run whose search service finds nothing. -/
theorem c6_empty_discovery_exits_witness :
    main_run sampleConfig emptySearchEnv { conclusion := "old content", fs := [] }
      = { conclusion := "old content", fs := [], trace := [],
          send_result := none } :=
  c6_empty_discovery_exits sampleConfig emptySearchEnv
    { conclusion := "old content", fs := [] } rfl

/-- Deleting a freshly-downloaded file restores the previous filesystem. -/
theorem delete_pdf_fresh (fs : List String) (p : String) (hf : p ∉ fs) :
    delete_pdf (p :: fs) p = (fs, [Effect.deleteFile p]) := by
  unfold delete_pdf
  have hfil : fs.filter (fun q => q != p) = fs :=
    List.filter_eq_self.mpr (fun a ha => by
      simp only [bne_iff_ne, ne_eq]
      intro hap
      exact hf (hap ▸ ha))
  simp [List.filter_cons, hfil]

/-- C4: when the transfer fails, retrieval returns the explicit no-document
signal; the orchestrator then skips the paper entirely — the step adds only
the failed transfer attempt to the trace (no sleep, no inference call), adds
no pair to the run report, and the remaining papers are processed from the
same state; consequently the log and the notification are those of the
remaining papers alone, with no entry for the skipped paper. -/
theorem c4_retrieval_failure_skips (dl : Paper → DownloadOutcome)
    (inf : List (String × String) → InferOutcome) (fs : List String)
    (paper : Paper) (rest : List Paper) (e : String) (now : Datetime)
    (prior : String)
    (hd : dl paper = DownloadOutcome.err e)
    (hf : derived_pdf_path PAPERS_DIR paper ∉ fs) :
    download_paper paper PAPERS_DIR fs (dl paper)
      = (none, fs, [Effect.transfer (derived_pdf_path PAPERS_DIR paper)])
    ∧ process_papers dl inf fs (paper :: rest)
      = ((process_papers dl inf fs rest).1,
         (process_papers dl inf fs rest).2.1,
         Effect.transfer (derived_pdf_path PAPERS_DIR paper)
           :: (process_papers dl inf fs rest).2.2)
    ∧ (paper ∉ rest →
        ∀ a, (paper, a) ∉ (process_papers dl inf fs (paper :: rest)).1)
    ∧ write_to_conclusion now prior (process_papers dl inf fs (paper :: rest)).1
        = write_to_conclusion now prior (process_papers dl inf fs rest).1
    ∧ format_email_content now (process_papers dl inf fs (paper :: rest)).1
        = format_email_content now (process_papers dl inf fs rest).1 := by
  have hdl : download_paper paper PAPERS_DIR fs (dl paper)
      = (none, fs, [Effect.transfer (derived_pdf_path PAPERS_DIR paper)]) := by
    unfold download_paper
    rw [hd]
    simp [hf]
  have hstep : process_papers dl inf fs (paper :: rest)
      = ((process_papers dl inf fs rest).1,
         (process_papers dl inf fs rest).2.1,
         Effect.transfer (derived_pdf_path PAPERS_DIR paper)
           :: (process_papers dl inf fs rest).2.2) := by
    simp only [process_papers, hdl, List.singleton_append]
  refine ⟨hdl, hstep, fun hnr a hmem => ?_, by rw [hstep], by rw [hstep]⟩
  rw [hstep] at hmem
  exact hnr (process_pairs_mem dl inf rest fs (paper, a) hmem)

/-- C4 (witness): one paper whose transfer fails — the run report stays
empty and the only effect is the failed transfer attempt. -/
theorem c4_retrieval_failure_skips_witness :
    process_papers (fun _ => DownloadOutcome.err "HTTP 404")
        (fun _ => InferOutcome.ok "analysis") [] [samplePaper]
      = ([], [], [Effect.transfer (derived_pdf_path PAPERS_DIR samplePaper)]) := by
  have h := c4_retrieval_failure_skips (fun _ => DownloadOutcome.err "HTTP 404")
    (fun _ => InferOutcome.ok "analysis") [] samplePaper [] "HTTP 404"
    ⟨days_from_civil 2026 10 12, 8, 0, 0⟩ "" rfl (by simp)
  exact h.2.1

/-- C5: when the inference service fails, the generator returns the short
failure-noting placeholder instead of raising, the (paper, placeholder) pair
is still prepended to the run report, and processing continues with the
remaining papers from the restored filesystem. -/
theorem c5_inference_failure_not_fatal (dl : Paper → DownloadOutcome)
    (inf : List (String × String) → InferOutcome) (fs : List String)
    (paper : Paper) (rest : List Paper) (e : String)
    (hd : dl paper = DownloadOutcome.ok)
    (hf : derived_pdf_path PAPERS_DIR paper ∉ fs)
    (hi : inf (analyze_request (derived_pdf_path PAPERS_DIR paper) paper)
        = InferOutcome.err e) :
    analyze_paper_with_deepseek inf (derived_pdf_path PAPERS_DIR paper) paper
      = "**论文分析出错**: " ++ e
    ∧ process_papers dl inf fs (paper :: rest)
      = ((paper, "**论文分析出错**: " ++ e) :: (process_papers dl inf fs rest).1,
         (process_papers dl inf fs rest).2.1,
         Effect.transfer (derived_pdf_path PAPERS_DIR paper)
           :: Effect.sleep 2
           :: Effect.inferCall
                (analyze_request (derived_pdf_path PAPERS_DIR paper) paper)
           :: Effect.deleteFile (derived_pdf_path PAPERS_DIR paper)
           :: (process_papers dl inf fs rest).2.2) := by
  have hana : analyze_paper_with_deepseek inf
      (derived_pdf_path PAPERS_DIR paper) paper = "**论文分析出错**: " ++ e := by
    unfold analyze_paper_with_deepseek
    rw [hi]
  have hdl : download_paper paper PAPERS_DIR fs (dl paper)
      = (some (derived_pdf_path PAPERS_DIR paper),
         derived_pdf_path PAPERS_DIR paper :: fs,
         [Effect.transfer (derived_pdf_path PAPERS_DIR paper)]) := by
    unfold download_paper
    rw [hd]
    simp [hf]
  have hdel := delete_pdf_fresh fs (derived_pdf_path PAPERS_DIR paper) hf
  refine ⟨hana, ?_⟩
  simp only [process_papers, hdl, hdel, hana, List.singleton_append,
    List.cons_append, List.nil_append]

/-- C5 (witness): one paper downloads fine, the inference call fails — the
pair still lands in the run report with the placeholder text, and the
transient file is deleted. -/
theorem c5_inference_failure_not_fatal_witness :
    process_papers (fun _ => DownloadOutcome.ok)
        (fun _ => InferOutcome.err "rate limited") [] [samplePaper]
      = ([(samplePaper, "**论文分析出错**: " ++ "rate limited")], [],
         [Effect.transfer (derived_pdf_path PAPERS_DIR samplePaper),
          Effect.sleep 2,
          Effect.inferCall
            (analyze_request (derived_pdf_path PAPERS_DIR samplePaper) samplePaper),
          Effect.deleteFile (derived_pdf_path PAPERS_DIR samplePaper)]) := by
  have h := c5_inference_failure_not_fatal (fun _ => DownloadOutcome.ok)
    (fun _ => InferOutcome.err "rate limited") [] samplePaper [] "rate limited"
    rfl (by simp) rfl
  exact h.2

/-- The `all([...]) or not EMAIL_TO` guard in `send_email`, characterised as
a disjunction of missing settings. -/
theorem mail_guard_iff (cfg : MailConfig) :
    ((!(truthyOpt cfg.SMTP_SERVER && (cfg.SMTP_PORT != 0)
          && truthyOpt cfg.SMTP_USERNAME && truthyOpt cfg.SMTP_PASSWORD
          && truthyOpt cfg.EMAIL_FROM)
        || cfg.EMAIL_TO.isEmpty) = true) ↔
    (truthyOpt cfg.SMTP_SERVER = false ∨ cfg.SMTP_PORT = 0
      ∨ truthyOpt cfg.SMTP_USERNAME = false ∨ truthyOpt cfg.SMTP_PASSWORD = false
      ∨ truthyOpt cfg.EMAIL_FROM = false ∨ cfg.EMAIL_TO = []) := by
  cases h1 : truthyOpt cfg.SMTP_SERVER <;>
    cases h2 : truthyOpt cfg.SMTP_USERNAME <;>
      cases h3 : truthyOpt cfg.SMTP_PASSWORD <;>
        cases h4 : truthyOpt cfg.EMAIL_FROM <;>
          rcases hp : cfg.SMTP_PORT with _ | n <;>
            rcases hto : cfg.EMAIL_TO with _ | ⟨a, rest⟩ <;>
              simp [h1, h2, h3, h4, hp, hto]

/-- C7: the notifier skips (no SMTP attempt) exactly when a transport
setting is missing/falsy or the recipient list is empty; otherwise it
attempts delivery of one message whose To header joins all recipients, and a
delivery failure is caught and logged, never escalated. -/
theorem c7_send_email_spec (cfg : MailConfig) (deliver : MailMsg → MailOutcome)
    (now : Datetime) (content : String) :
    (send_email cfg deliver now content = SendResult.skipped ↔
        (truthyOpt cfg.SMTP_SERVER = false ∨ cfg.SMTP_PORT = 0
          ∨ truthyOpt cfg.SMTP_USERNAME = false
          ∨ truthyOpt cfg.SMTP_PASSWORD = false
          ∨ truthyOpt cfg.EMAIL_FROM = false ∨ cfg.EMAIL_TO = []))
    ∧ (send_email cfg deliver now content = SendResult.skipped →
        send_effects (send_email cfg deliver now content) = [])
    ∧ (send_email cfg deliver now content ≠ SendResult.skipped →
        ∃ msg : MailMsg,
          msg.msg_to = String.intercalate ", " cfg.EMAIL_TO
          ∧ msg.msg_from = cfg.EMAIL_FROM.getD ""
          ∧ msg.body = render_email_html content
          ∧ send_effects (send_email cfg deliver now content)
              = [Effect.mailAttempt msg]
          ∧ ((deliver msg = MailOutcome.ok
                ∧ send_email cfg deliver now content = SendResult.sent msg)
            ∨ (∃ er, deliver msg = MailOutcome.err er
                ∧ send_email cfg deliver now content
                    = SendResult.failedLogged msg er))) := by
  by_cases hg : (!(truthyOpt cfg.SMTP_SERVER && (cfg.SMTP_PORT != 0)
          && truthyOpt cfg.SMTP_USERNAME && truthyOpt cfg.SMTP_PASSWORD
          && truthyOpt cfg.EMAIL_FROM)
        || cfg.EMAIL_TO.isEmpty) = true
  · have hres : send_email cfg deliver now content = SendResult.skipped := by
      unfold send_email
      rw [if_pos hg]
    refine ⟨?_, fun _ => by rw [hres]; rfl, fun hne => absurd hres hne⟩
    rw [hres]
    simp only [true_iff]
    exact (mail_guard_iff cfg).mp hg
  · rcases hdev : deliver (MailMsg.mk (cfg.EMAIL_FROM.getD "")
        (String.intercalate ", " cfg.EMAIL_TO)
        ("ArXiv论文分析报告 - " ++ strftime_Y_m_d now.ord)
        (render_email_html content)) with _ | er
    · have hres : send_email cfg deliver now content
          = SendResult.sent (MailMsg.mk (cfg.EMAIL_FROM.getD "")
              (String.intercalate ", " cfg.EMAIL_TO)
              ("ArXiv论文分析报告 - " ++ strftime_Y_m_d now.ord)
              (render_email_html content)) := by
        simp only [send_email, if_neg hg, hdev]
      refine ⟨?_, fun hsk => ?_, fun _ => ?_⟩
      · rw [hres]
        simp only [iff_iff_implies_and_implies]
        refine ⟨fun habs => absurd habs (by simp), fun hmiss => ?_⟩
        exact absurd ((mail_guard_iff cfg).mpr hmiss) hg
      · rw [hres] at hsk
        exact absurd hsk (by simp)
      · refine ⟨_, rfl, rfl, rfl, by rw [hres]; rfl, Or.inl ⟨hdev, hres⟩⟩
    · have hres : send_email cfg deliver now content
          = SendResult.failedLogged (MailMsg.mk (cfg.EMAIL_FROM.getD "")
              (String.intercalate ", " cfg.EMAIL_TO)
              ("ArXiv论文分析报告 - " ++ strftime_Y_m_d now.ord)
              (render_email_html content)) er := by
        simp only [send_email, if_neg hg, hdev]
      refine ⟨?_, fun hsk => ?_, fun _ => ?_⟩
      · rw [hres]
        simp only [iff_iff_implies_and_implies]
        refine ⟨fun habs => absurd habs (by simp), fun hmiss => ?_⟩
        exact absurd ((mail_guard_iff cfg).mpr hmiss) hg
      · rw [hres] at hsk
        exact absurd hsk (by simp)
      · refine ⟨_, rfl, rfl, rfl, by rw [hres]; rfl, Or.inr ⟨er, hdev, hres⟩⟩

/-- C7 (witness): a configuration with no SMTP username is skipped; the same
configuration completed but with a failing transport yields a caught,
logged failure. -/
theorem c7_send_email_spec_witness :
    send_email { sampleConfig with SMTP_USERNAME := none }
        (fun _ => MailOutcome.ok) ⟨days_from_civil 2026 10 12, 8, 0, 0⟩ "body"
      = SendResult.skipped := by
  exact ((c7_send_email_spec { sampleConfig with SMTP_USERNAME := none }
    (fun _ => MailOutcome.ok) ⟨days_from_civil 2026 10 12, 8, 0, 0⟩ "body").1).mpr
    (Or.inr (Or.inr (Or.inl rfl)))

/-- C9: in a run that reaches the finalize steps the log append appears in
the trace strictly before any mail attempt (the per-paper prefix contains
neither finalize effect), the final log content does not depend on the mail
transport's behaviour, and it equals the prior content plus this run's
section — a notify failure can neither undo nor prevent the log write. -/
theorem c9_log_write_before_notify (cfg : MailConfig) (env : Env)
    (st : RunState) (d₁ d₂ : MailMsg → MailOutcome)
    (hne : get_recent_papers env.search env.now CATEGORIES MAX_PAPERS ≠ []) :
    (∃ pre x post,
      (main_run cfg env st).trace = pre ++ Effect.logAppend x :: post
      ∧ (∀ m, Effect.mailAttempt m ∉ pre)
      ∧ (∀ t, Effect.logAppend t ∉ pre))
    ∧ (main_run cfg { env with deliver := d₁ } st).conclusion
        = (main_run cfg { env with deliver := d₂ } st).conclusion
    ∧ (main_run cfg env st).conclusion
        = st.conclusion ++ log_section_header env.now
            ++ run_body (process_papers env.download env.infer st.fs
                 (get_recent_papers env.search env.now CATEGORIES MAX_PAPERS)).1 := by
  have hni : (get_recent_papers env.search env.now CATEGORIES MAX_PAPERS).isEmpty
      = false := by
    cases h : get_recent_papers env.search env.now CATEGORIES MAX_PAPERS with
    | nil => exact absurd h hne
    | cons a l => rfl
  have hmain : main_run cfg env st
      = { conclusion :=
            write_to_conclusion env.now st.conclusion
              (process_papers env.download env.infer st.fs
                (get_recent_papers env.search env.now CATEGORIES MAX_PAPERS)).1
          fs :=
            (process_papers env.download env.infer st.fs
              (get_recent_papers env.search env.now CATEGORIES MAX_PAPERS)).2.1
          trace :=
            (process_papers env.download env.infer st.fs
                (get_recent_papers env.search env.now CATEGORIES MAX_PAPERS)).2.2
              ++ [Effect.logAppend (write_to_conclusion env.now ""
                    (process_papers env.download env.infer st.fs
                      (get_recent_papers env.search env.now CATEGORIES
                        MAX_PAPERS)).1)]
              ++ send_effects (send_email cfg env.deliver env.now
                   (format_email_content env.now
                     (process_papers env.download env.infer st.fs
                       (get_recent_papers env.search env.now CATEGORIES
                         MAX_PAPERS)).1))
          send_result :=
            some (send_email cfg env.deliver env.now
              (format_email_content env.now
                (process_papers env.download env.infer st.fs
                  (get_recent_papers env.search env.now CATEGORIES
                    MAX_PAPERS)).1)) } := by
    simp only [main_run, hni, Bool.false_eq_true, if_false]
  refine ⟨⟨(process_papers env.download env.infer st.fs
      (get_recent_papers env.search env.now CATEGORIES MAX_PAPERS)).2.2,
      write_to_conclusion env.now ""
        (process_papers env.download env.infer st.fs
          (get_recent_papers env.search env.now CATEGORIES MAX_PAPERS)).1,
      send_effects (send_email cfg env.deliver env.now
        (format_email_content env.now
          (process_papers env.download env.infer st.fs
            (get_recent_papers env.search env.now CATEGORIES MAX_PAPERS)).1)),
      ?_, ?_, ?_⟩, ?_, ?_⟩
  · rw [hmain]
    simp [List.append_assoc]
  · exact (process_trace_no_finalize env.download env.infer _ _).1
  · exact (process_trace_no_finalize env.download env.infer _ _).2
  · simp only [main_run, hni, Bool.false_eq_true, if_false]
  · rw [hmain]
    exact write_to_conclusion_closed env.now st.conclusion _

/-- C9 (witness): with one discovered paper, the final log content is the
same whether the mail transport fails or succeeds. -/
theorem c9_log_write_before_notify_witness :
    (main_run sampleConfig
        { failDownloadEnv with deliver := fun _ => MailOutcome.err "smtp down" }
        { conclusion := "old content", fs := [] }).conclusion
      = (main_run sampleConfig
          { failDownloadEnv with deliver := fun _ => MailOutcome.ok }
          { conclusion := "old content", fs := [] }).conclusion := by
  exact (c9_log_write_before_notify sampleConfig failDownloadEnv
    { conclusion := "old content", fs := [] }
    (fun _ => MailOutcome.err "smtp down") (fun _ => MailOutcome.ok)
    (List.cons_ne_nil _ _)).2.1
